import Mathlib

/-!
Verification development for the ShadeBuilder mesh-synthesis engine.

The development shallowly embeds the two generator cores of the repository:

* `generateLampshadeGeometry` and its helpers (`getRadiusAtHeight`,
  `getDisplacementAt`, the closed-profile builder and the lathe sweep),
  translated from the revolution-based shape generator
  (`src/unnamed/part_002`, first document).  Real-valued arithmetic is
  modelled over `ℝ`; the trigonometric primitives of the runtime
  (`Math.sin`, `Math.cos`, `Math.atan2`, `Math.round`, `Math.floor`) are
  modelled by their Mathlib counterparts.  JavaScript's `x || d` default
  for numeric parameters (which treats `0` as falsy) is modelled by
  explicit helpers.

* `generateLithophaneGeometry` and its helpers (`applySmoothing`,
  brightness/contrast adjustment, bilinear sampling, grid/wall index
  construction), translated from the heightfield relief generator
  (`src/src/utils/lithophane-generator.ts`).  The luminance pipeline is
  exact rational arithmetic over `ℚ`; byte stores into a
  `Uint8ClampedArray` are modelled by clamping plus round-half-to-even.
-/

/-- Three-component vector, mirroring a `THREE.Vector3` position entry. -/
structure Vec3 where
  x : ℝ
  y : ℝ
  z : ℝ

/-- A generated buffer geometry: vertex positions plus a triangle index list. -/
structure Mesh where
  positions : List Vec3
  indexList : List ℕ

/-- JavaScript `o || d` for an optional real-valued parameter: both a missing
value and `0` (falsy) fall back to the default `d`. -/
noncomputable def jsOrR (o : Option ℝ) (d : ℝ) : ℝ :=
  match o with
  | none => d
  | some v => if v = 0 then d else v

/-- JavaScript `o || d` for an optional integral count parameter: both a
missing value and `0` (falsy) fall back to the default `d`. -/
def jsOrN (o : Option ℕ) (d : ℕ) : ℕ :=
  match o with
  | none => d
  | some v => if v = 0 then d else v

/-- `Math.round`: round half toward positive infinity. -/
noncomputable def jsRound (x : ℝ) : ℤ := ⌊x + 1 / 2⌋

/-- `Math.atan2 y x`: the angle of the point `(x, y)`, modelled by the
complex argument of `x + y·i`. -/
noncomputable def jsAtan2 (y x : ℝ) : ℝ := Complex.arg ⟨x, y⟩

/-- Parameter record of the lampshade generator (`LampshadeParams` in the
source).  Counts are modelled as naturals, continuous quantities as reals;
the optional type-specific parameters keep their `Option` nature. -/
structure LampshadeParams where
  type : String
  silhouette : String
  height : ℝ
  topRadius : ℝ
  bottomRadius : ℝ
  thickness : ℝ
  segments : ℕ
  seed : ℝ
  internalRibs : ℕ
  ribThickness : ℝ
  fitterType : String
  fitterDiameter : ℝ
  fitterHeight : ℝ
  ribCount : Option ℕ := none
  ribDepth : Option ℝ := none
  twistAngle : Option ℝ := none
  cellCount : Option ℕ := none
  amplitude : Option ℝ := none
  frequency : Option ℝ := none
  sides : Option ℕ := none
  gridDensity : Option ℕ := none
  foldCount : Option ℕ := none
  foldDepth : Option ℝ := none
  noiseScale : Option ℝ := none
  noiseStrength : Option ℝ := none
  slotCount : Option ℕ := none
  slotWidth : Option ℝ := none
  gapDistance : Option ℝ := none

/-- The deterministic trigonometric hash `pseudoNoise` of the source. -/
noncomputable def pseudoNoise (x y z seed : ℝ) : ℝ :=
  let n := Real.sin (x * 12.9898 + y * 78.233 + z * 37.719 + seed) * 43758.5453
  n - ⌊n⌋

/-- `getRadiusAtHeight`: linear radius between top and bottom, modulated by
the silhouette.  The `switch` has no `straight` case, so any silhouette
other than the four modulated ones leaves the linear radius unchanged. -/
noncomputable def getRadiusAtHeight (y : ℝ) (p : LampshadeParams) : ℝ :=
  let t := (y + p.height / 2) / p.height
  let r := p.topRadius + (p.bottomRadius - p.topRadius) * t
  if p.silhouette = "hourglass" then r * (1 + Real.sin (t * Real.pi) ^ 2 * (-0.3))
  else if p.silhouette = "bell" then r * (1 + (1 - t) ^ 2 * 0.4)
  else if p.silhouette = "convex" then r * (1 + Real.sin (t * Real.pi) * 0.2)
  else if p.silhouette = "concave" then r * (1 + Real.sin (t * Real.pi) * (-0.2))
  else r

/-- `getDisplacementAt`: the per-type radial displacement field. -/
noncomputable def getDisplacementAt (angle y : ℝ) (p : LampshadeParams) : ℝ :=
  let normY := (y + p.height / 2) / p.height
  if p.type = "ribbed_drum" then
    Real.sin (angle * (jsOrN p.ribCount 20 : ℕ)) * jsOrR p.ribDepth 0.5
  else if p.type = "wave_shell" then
    Real.sin (angle * jsOrR p.frequency 8 + normY * Real.pi * 2) * jsOrR p.amplitude 0.5
  else if p.type = "organic_cell" ∨ p.type = "perlin_noise" then
    let scale := jsOrR p.noiseScale 1.5
    let strength := jsOrR p.noiseStrength 0.4
    (pseudoNoise (Real.cos angle * scale) (y * scale) (Real.sin angle * scale) p.seed * 0.6 +
      pseudoNoise (Real.cos angle * scale * 2) (y * scale * 2) (Real.sin angle * scale * 2)
        p.seed * 0.4) * strength
  else if p.type = "origami" then
    let folds := (jsOrN p.foldCount 12 : ℝ)
    let depth := jsOrR p.foldDepth 0.8
    let segmentIndex : ℤ := jsRound (angle / (Real.pi * 2) * (folds * 2))
    if segmentIndex % 2 ≠ 0 then -depth else 0
  else 0

/-- `getClosedProfilePoints`: the outer profile (floor-clamped at `0.1`)
followed by the inner, thickness-offset profile in reverse height order
(floor-clamped at `0.05`), one closed loop for the lathe sweep. -/
noncomputable def getClosedProfilePoints (p : LampshadeParams) (steps : ℕ)
    (customThickness : Option ℝ) : List (ℝ × ℝ) :=
  let tVal := jsOrR customThickness p.thickness
  ((List.range (steps + 1)).map (fun (i : ℕ) =>
    let t := (i : ℝ) / (steps : ℝ)
    let y := -p.height / 2 + p.height * t
    ((max 0.1 (getRadiusAtHeight y p)), y)))
  ++ ((List.range (steps + 1)).reverse.map (fun (i : ℕ) =>
    let t := (i : ℝ) / (steps : ℝ)
    let y := -p.height / 2 + p.height * t
    ((max 0.05 (getRadiusAtHeight y p - tVal)), y)))

/-- Vertex list of `THREE.LatheGeometry`: the profile swept through a full
turn, ring `i` at angle `φ = i·2π/segments`, with `x = r·sin φ`,
`z = r·cos φ`. -/
noncomputable def latheVertices (points : List (ℝ × ℝ)) (segments : ℕ) : List Vec3 :=
  (List.range (segments + 1)).flatMap (fun (i : ℕ) =>
    let phi := (i : ℝ) * (2 * Real.pi / (segments : ℝ))
    points.map (fun q => ⟨q.1 * Real.sin phi, q.2, q.1 * Real.cos phi⟩))

/-- Index list of `THREE.LatheGeometry`: two triangles per quad between
adjacent rings. -/
def latheIndices (numPoints segments : ℕ) : List ℕ :=
  (List.range segments).flatMap (fun (i : ℕ) =>
    (List.range (numPoints - 1)).flatMap (fun (j : ℕ) =>
      let base := j + i * numPoints
      [base, base + numPoints, base + 1,
       base + numPoints + 1, base + 1, base + numPoints]))

/-- The per-vertex radial displacement applied to lathe-family shapes:
scale `x`/`z` by `(r + displacement)/r`. -/
noncomputable def displacedVertex (p : LampshadeParams) (v : Vec3) : Vec3 :=
  let angle := jsAtan2 v.z v.x
  let r := Real.sqrt (v.x * v.x + v.z * v.z)
  let disp := getDisplacementAt angle v.y p
  let factor := (r + disp) / r
  ⟨v.x * factor, v.y, v.z * factor⟩

/-- The per-vertex `spiral_twist` transform: rotate about the vertical axis
by `normY · twist`, where `twist = (twistAngle || 360)·π/180`. -/
noncomputable def spiralTwistTransform (p : LampshadeParams) (v : Vec3) : Vec3 :=
  let twist := jsOrR p.twistAngle 360 * (Real.pi / 180)
  let normY := (v.y + p.height / 2) / p.height
  let angle := normY * twist
  ⟨v.x * Real.cos angle - v.z * Real.sin angle, v.y,
   v.x * Real.sin angle + v.z * Real.cos angle⟩

/-- Map a per-vertex transform over a mesh's positions (in-place vertex
mutation in the source). -/
noncomputable def meshMap (f : Vec3 → Vec3) (m : Mesh) : Mesh :=
  { m with positions := m.positions.map f }

/-- `BufferGeometry.rotateY`: `x' = x·cos θ + z·sin θ`, `z' = −x·sin θ + z·cos θ`. -/
noncomputable def rotYv (θ : ℝ) (v : Vec3) : Vec3 :=
  ⟨v.x * Real.cos θ + v.z * Real.sin θ, v.y, -(v.x * Real.sin θ) + v.z * Real.cos θ⟩

/-- `BufferGeometry.rotateX`: `y' = y·cos θ − z·sin θ`, `z' = y·sin θ + z·cos θ`. -/
noncomputable def rotXv (θ : ℝ) (v : Vec3) : Vec3 :=
  ⟨v.x, v.y * Real.cos θ - v.z * Real.sin θ, v.y * Real.sin θ + v.z * Real.cos θ⟩

/-- `BufferGeometry.translate`. -/
noncomputable def translateV (dx dy dz : ℝ) (v : Vec3) : Vec3 :=
  ⟨v.x + dx, v.y + dy, v.z + dz⟩

/-- `BufferGeometry.scale`. -/
noncomputable def scaleV (sx sy sz : ℝ) (v : Vec3) : Vec3 :=
  ⟨v.x * sx, v.y * sy, v.z * sz⟩

/-- Index lists of merged geometries: each input's indices offset by the
running vertex count (`BufferGeometryUtils.mergeGeometries`). -/
def mergeIndexLists : List Mesh → ℕ → List ℕ
  | [], _ => []
  | g :: rest, off =>
      g.indexList.map (· + off) ++ mergeIndexLists rest (off + g.positions.length)

/-- `BufferGeometryUtils.mergeGeometries`: concatenated vertex buffers, with
each input's index buffer offset by the running vertex count.  A topological
merge, not a boolean union. -/
noncomputable def mergeMeshes (gs : List Mesh) : Mesh :=
  { positions := gs.flatMap (fun g => g.positions),
    indexList := mergeIndexLists gs 0 }

/-- One face grid of `THREE.BoxGeometry` (`buildPlane`): `assemble` places
the (u,v,w) components onto the (x,y,z) axes of the face. -/
noncomputable def boxPlaneVertices (assemble : ℝ → ℝ → ℝ → Vec3)
    (udir vdir w h d : ℝ) (gridX gridY : ℕ) : List Vec3 :=
  let segW := w / (gridX : ℝ)
  let segH := h / (gridY : ℝ)
  (List.range (gridY + 1)).flatMap (fun (iy : ℕ) =>
    (List.range (gridX + 1)).map (fun (ix : ℕ) =>
      assemble (((ix : ℝ) * segW - w / 2) * udir) (((iy : ℝ) * segH - h / 2) * vdir) (d / 2)))

/-- Index grid of one `buildPlane` face, offset by the vertices already
emitted. -/
def boxPlaneIndices (gridX gridY off : ℕ) : List ℕ :=
  (List.range gridY).flatMap (fun (iy : ℕ) =>
    (List.range gridX).flatMap (fun (ix : ℕ) =>
      let a := off + ix + (gridX + 1) * iy
      let b := off + ix + (gridX + 1) * (iy + 1)
      let c := off + (ix + 1) + (gridX + 1) * (iy + 1)
      let d := off + (ix + 1) + (gridX + 1) * iy
      [a, b, d, b, c, d]))

/-- `THREE.BoxGeometry(width, height, depth, wSeg, hSeg, dSeg)`: six face
grids (px, nx, py, ny, pz, nz) merged into one buffer. -/
noncomputable def boxGeometry (width height depth : ℝ) (wSeg hSeg dSeg : ℕ) : Mesh :=
  let px := boxPlaneVertices (fun a b c => ⟨c, b, a⟩) (-1) (-1) depth height width dSeg hSeg
  let nx := boxPlaneVertices (fun a b c => ⟨c, b, a⟩) 1 (-1) depth height (-width) dSeg hSeg
  let py := boxPlaneVertices (fun a b c => ⟨a, c, b⟩) 1 1 width depth height wSeg dSeg
  let ny := boxPlaneVertices (fun a b c => ⟨a, c, b⟩) 1 (-1) width depth (-height) wSeg dSeg
  let pz := boxPlaneVertices (fun a b c => ⟨a, b, c⟩) 1 (-1) width height depth wSeg hSeg
  let nz := boxPlaneVertices (fun a b c => ⟨a, b, c⟩) (-1) (-1) width height (-depth) wSeg hSeg
  let n1 := px.length
  let n2 := n1 + nx.length
  let n3 := n2 + py.length
  let n4 := n3 + ny.length
  let n5 := n4 + pz.length
  { positions := px ++ nx ++ py ++ ny ++ pz ++ nz,
    indexList :=
      boxPlaneIndices dSeg hSeg 0 ++ boxPlaneIndices dSeg hSeg n1 ++
      boxPlaneIndices wSeg dSeg n2 ++ boxPlaneIndices wSeg dSeg n3 ++
      boxPlaneIndices wSeg hSeg n4 ++ boxPlaneIndices wSeg hSeg n5 }

/-- Torso vertices of `THREE.CylinderGeometry`. -/
noncomputable def cylinderTorsoVertices (rTop rBottom height : ℝ)
    (radialSeg heightSeg : ℕ) : List Vec3 :=
  (List.range (heightSeg + 1)).flatMap (fun (yIdx : ℕ) =>
    let v := (yIdx : ℝ) / (heightSeg : ℝ)
    let radius := v * (rBottom - rTop) + rTop
    (List.range (radialSeg + 1)).map (fun (xIdx : ℕ) =>
      let theta := (xIdx : ℝ) / (radialSeg : ℝ) * (2 * Real.pi)
      ⟨radius * Real.sin theta, -v * height + height / 2, radius * Real.cos theta⟩))

/-- Torso indices of `THREE.CylinderGeometry`. -/
def cylinderTorsoIndices (radialSeg heightSeg : ℕ) : List ℕ :=
  (List.range radialSeg).flatMap (fun (x : ℕ) =>
    (List.range heightSeg).flatMap (fun (y : ℕ) =>
      let a := y * (radialSeg + 1) + x
      let b := (y + 1) * (radialSeg + 1) + x
      let c := (y + 1) * (radialSeg + 1) + (x + 1)
      let d := y * (radialSeg + 1) + (x + 1)
      [a, b, d, b, c, d]))

/-- One end cap of `THREE.CylinderGeometry`: centre fan vertices followed by
an edge ring. -/
noncomputable def cylinderCapVertices (radius height : ℝ) (radialSeg : ℕ)
    (sign : ℝ) : List Vec3 :=
  ((List.range radialSeg).map (fun _ => (⟨0, height / 2 * sign, 0⟩ : Vec3)))
  ++ ((List.range (radialSeg + 1)).map (fun (xIdx : ℕ) =>
    let theta := (xIdx : ℝ) / (radialSeg : ℝ) * (2 * Real.pi)
    ⟨radius * Real.sin theta, height / 2 * sign, radius * Real.cos theta⟩))

/-- Cap indices: one triangle per radial segment fanning around the centre. -/
def cylinderCapIndices (radialSeg off : ℕ) (top : Bool) : List ℕ :=
  (List.range radialSeg).flatMap (fun (x : ℕ) =>
    let c := off + x
    let i := off + radialSeg + x
    if top then [i, i + 1, c] else [i + 1, i, c])

/-- `THREE.CylinderGeometry(rTop, rBottom, height, radialSeg, heightSeg)`,
closed (caps generated for every strictly positive end radius). -/
noncomputable def cylinderGeometry (rTop rBottom height : ℝ)
    (radialSeg heightSeg : ℕ) : Mesh :=
  let torso := cylinderTorsoVertices rTop rBottom height radialSeg heightSeg
  let topCap := if 0 < rTop then cylinderCapVertices rTop height radialSeg 1 else []
  let botCap := if 0 < rBottom then cylinderCapVertices rBottom height radialSeg (-1) else []
  let n1 := torso.length
  let n2 := n1 + topCap.length
  { positions := torso ++ topCap ++ botCap,
    indexList :=
      cylinderTorsoIndices radialSeg heightSeg ++
      (if 0 < rTop then cylinderCapIndices radialSeg n1 true else []) ++
      (if 0 < rBottom then cylinderCapIndices radialSeg n2 false else []) }

/-- `THREE.TorusGeometry(radius, tube, radialSeg, tubularSeg)`. -/
noncomputable def torusGeometry (radius tube : ℝ) (radialSeg tubularSeg : ℕ) : Mesh :=
  { positions :=
      (List.range (radialSeg + 1)).flatMap (fun (j : ℕ) =>
        (List.range (tubularSeg + 1)).map (fun (i : ℕ) =>
          let u := (i : ℝ) / (tubularSeg : ℝ) * (2 * Real.pi)
          let v := (j : ℝ) / (radialSeg : ℝ) * (2 * Real.pi)
          ⟨(radius + tube * Real.cos v) * Real.cos u,
           (radius + tube * Real.cos v) * Real.sin u,
           tube * Real.sin v⟩)),
    indexList :=
      (List.range radialSeg).flatMap (fun (j' : ℕ) =>
        (List.range tubularSeg).flatMap (fun (i' : ℕ) =>
          let j := j' + 1
          let i := i' + 1
          let a := (tubularSeg + 1) * j + i - 1
          let b := (tubularSeg + 1) * (j - 1) + i - 1
          let c := (tubularSeg + 1) * (j - 1) + i
          let d := (tubularSeg + 1) * j + i
          [a, b, d, b, c, d])) }

/-- JavaScript `v || d` for a required numeric field: `0` is falsy. -/
noncomputable def jsOrRv (v d : ℝ) : ℝ := if v = 0 then d else v

/-- The `slotted` assembly: a shrunken core lathe shell plus `slotCount`
radial fin boxes whose radial extent follows the silhouette. -/
noncomputable def slottedMesh (p : LampshadeParams) : Mesh :=
  let count := jsOrN p.slotCount 16
  let coreOffset : ℝ := 0.8
  let coreProfile := getClosedProfilePoints p 40 (some p.thickness)
  let coreGeom : Mesh :=
    meshMap (scaleV 0.8 1 0.8)
      { positions := latheVertices coreProfile p.segments,
        indexList := latheIndices coreProfile.length p.segments }
  let fins := (List.range count).map (fun (i : ℕ) =>
    let angle := (i : ℝ) / (count : ℝ) * (2 * Real.pi)
    let finDepth := coreOffset + 0.5
    meshMap (rotYv angle)
      (meshMap (fun v =>
        let r := getRadiusAtHeight v.y p
        if 0 < v.x then ⟨r, v.y, v.z⟩ else ⟨r - finDepth + 0.01, v.y, v.z⟩)
        (boxGeometry finDepth p.height p.thickness 1 32 1)))
  mergeMeshes (coreGeom :: fins)

/-- The `lattice` assembly: `gridDensity` pairs of opposingly twisted struts
following the silhouette radius, plus top/bottom reinforcement rings. -/
noncomputable def latticeMesh (p : LampshadeParams) : Mesh :=
  let density := jsOrN p.gridDensity 12
  let strutRadius := p.thickness / 2
  let struts := (List.range density).flatMap (fun (i : ℕ) =>
    let angle := (i : ℝ) / (density : ℝ) * (2 * Real.pi)
    let strut := fun (dir : ℝ) =>
      meshMap (fun v =>
        let t := (v.y + p.height / 2) / p.height
        let r := getRadiusAtHeight v.y p
        let twist := dir * t * (2 * Real.pi / (density : ℝ)) * 2
        let curAngle := angle + twist
        ⟨Real.cos curAngle * r, v.y, Real.sin curAngle * r⟩)
        (cylinderGeometry strutRadius strutRadius (p.height * 1.1) 6 32)
    [strut 1, strut (-1)])
  let ringTop :=
    meshMap (translateV 0 (p.height / 2) 0)
      (meshMap (rotXv (Real.pi / 2)) (torusGeometry p.topRadius strutRadius 8 p.segments))
  let ringBottom :=
    meshMap (translateV 0 (-p.height / 2) 0)
      (meshMap (rotXv (Real.pi / 2)) (torusGeometry p.bottomRadius strutRadius 8 p.segments))
  mergeMeshes (struts ++ [ringTop, ringBottom])

/-- Internal rib slabs: thin vertical boxes whose inward face follows the
silhouette radius minus wall thickness. -/
noncomputable def internalRibMeshes (p : LampshadeParams) : List Mesh :=
  (List.range p.internalRibs).map (fun (i : ℕ) =>
    let angle := (i : ℝ) / (p.internalRibs : ℝ) * (2 * Real.pi)
    let ribWidth := jsOrRv p.ribThickness 0.2
    let ribDepth : ℝ := 0.5
    meshMap (rotYv angle)
      (meshMap (fun v =>
        let r := getRadiusAtHeight v.y p - p.thickness
        if 0 < v.z then ⟨v.x, v.y, r + 0.01⟩ else ⟨v.x, v.y, r - ribDepth⟩)
        (boxGeometry ribWidth p.height ribDepth 1 32 1)))

/-- `generateFitterGeometry`: ring torus plus 3 (`spider`) or 4 (`uno`)
spokes reaching out to the shell at the fitter height. -/
noncomputable def fitterMesh (p : LampshadeParams) : Mesh :=
  let fitterRadius := p.fitterDiameter / 20
  let yPos := p.height / 2 - p.fitterHeight
  let baseRadius := getRadiusAtHeight yPos p
  let ring :=
    meshMap (translateV 0 yPos 0)
      (meshMap (rotXv (Real.pi / 2)) (torusGeometry fitterRadius 0.15 8 32))
  let spokeCount : ℕ := if p.fitterType = "spider" then 3 else 4
  let spokes := (List.range spokeCount).map (fun (i : ℕ) =>
    let angle := (i : ℝ) / (spokeCount : ℝ) * (2 * Real.pi)
    let disp := getDisplacementAt angle yPos p
    let targetRadius := baseRadius + disp - p.thickness - 0.05
    let spokeLength := max 0.1 (targetRadius - fitterRadius)
    meshMap (rotYv angle)
      (meshMap (translateV (fitterRadius + spokeLength / 2) yPos 0)
        (boxGeometry spokeLength 0.15 0.3 1 1 1)))
  mergeMeshes (ring :: spokes)

/-- `generateLampshadeGeometry`: type dispatch over the closed-profile lathe
(displacement family, `slotted`, `lattice`, `spiral_twist`, and a silent
default branch producing the plain lathe), then the optional internal-rib
and fitter merges.  The source performs no parameter validation and has no
failure path, so the embedding is a total function into `Mesh`. -/
noncomputable def generateLampshadeGeometry (p : LampshadeParams) : Mesh :=
  let closedProfile := getClosedProfilePoints p 60 none
  let base : Mesh :=
    if p.type = "organic_cell" ∨ p.type = "perlin_noise" ∨
        p.type = "wave_shell" ∨ p.type = "ribbed_drum" then
      { positions := (latheVertices closedProfile p.segments).map (displacedVertex p),
        indexList := latheIndices closedProfile.length p.segments }
    else if p.type = "slotted" then slottedMesh p
    else if p.type = "lattice" then latticeMesh p
    else if p.type = "spiral_twist" then
      { positions := (latheVertices closedProfile p.segments).map (spiralTwistTransform p),
        indexList := latheIndices closedProfile.length p.segments }
    else
      { positions := latheVertices closedProfile p.segments,
        indexList := latheIndices closedProfile.length p.segments }
  let withRibs :=
    if 0 < p.internalRibs then mergeMeshes (base :: internalRibMeshes p) else base
  if p.fitterType ≠ "none" then mergeMeshes [withRibs, fitterMesh p] else withRibs

/-- Rotation about the vertical axis preserves the squared distance from
the axis. -/
theorem rotation_preserves_radius_sq (a b θ : ℝ) :
    (a * Real.cos θ - b * Real.sin θ) ^ 2 + (a * Real.sin θ + b * Real.cos θ) ^ 2
      = a ^ 2 + b ^ 2 := by
  linear_combination (a ^ 2 + b ^ 2) * Real.sin_sq_add_cos_sq θ

/-- C10: for `spiral_twist` the generator maps the pure per-vertex rotation
`spiralTwistTransform` over the revolution mesh, and that transform
preserves every vertex's `y`-coordinate and its distance
`sqrt(x² + z²)` from the vertical axis. -/
theorem C10_spiral_twist_pure_rotation (p : LampshadeParams) (v : Vec3)
    (ht : p.type = "spiral_twist") (hr : p.internalRibs = 0)
    (hf : p.fitterType = "none") :
    (generateLampshadeGeometry p).positions
        = (latheVertices (getClosedProfilePoints p 60 none) p.segments).map
            (spiralTwistTransform p)
    ∧ (spiralTwistTransform p v).y = v.y
    ∧ (spiralTwistTransform p v).x ^ 2 + (spiralTwistTransform p v).z ^ 2
        = v.x ^ 2 + v.z ^ 2
    ∧ Real.sqrt ((spiralTwistTransform p v).x ^ 2 + (spiralTwistTransform p v).z ^ 2)
        = Real.sqrt (v.x ^ 2 + v.z ^ 2) := by
  have hsq : (spiralTwistTransform p v).x ^ 2 + (spiralTwistTransform p v).z ^ 2
      = v.x ^ 2 + v.z ^ 2 := by
    simp only [spiralTwistTransform]
    exact rotation_preserves_radius_sq v.x v.z _
  refine ⟨?_, rfl, hsq, by rw [hsq]⟩
  simp +decide only [generateLampshadeGeometry, ht, hr, hf, if_true, if_false]

/-- Witness for C10 at concrete parameters and a concrete vertex. -/
theorem C10_spiral_twist_pure_rotation_witness :
    (generateLampshadeGeometry
          { type := "spiral_twist", silhouette := "straight", height := 2,
            topRadius := 1, bottomRadius := 1, thickness := 0.5, segments := 4,
            seed := 0, internalRibs := 0, ribThickness := 0.2,
            fitterType := "none", fitterDiameter := 1, fitterHeight := 1,
            twistAngle := some 90 }).positions
        = (latheVertices
            (getClosedProfilePoints
              { type := "spiral_twist", silhouette := "straight", height := 2,
                topRadius := 1, bottomRadius := 1, thickness := 0.5, segments := 4,
                seed := 0, internalRibs := 0, ribThickness := 0.2,
                fitterType := "none", fitterDiameter := 1, fitterHeight := 1,
                twistAngle := some 90 } 60 none) 4).map
            (spiralTwistTransform
              { type := "spiral_twist", silhouette := "straight", height := 2,
                topRadius := 1, bottomRadius := 1, thickness := 0.5, segments := 4,
                seed := 0, internalRibs := 0, ribThickness := 0.2,
                fitterType := "none", fitterDiameter := 1, fitterHeight := 1,
                twistAngle := some 90 })
    ∧ (spiralTwistTransform
          { type := "spiral_twist", silhouette := "straight", height := 2,
            topRadius := 1, bottomRadius := 1, thickness := 0.5, segments := 4,
            seed := 0, internalRibs := 0, ribThickness := 0.2,
            fitterType := "none", fitterDiameter := 1, fitterHeight := 1,
            twistAngle := some 90 } ⟨1, 0, 1⟩).x ^ 2
        + (spiralTwistTransform
          { type := "spiral_twist", silhouette := "straight", height := 2,
            topRadius := 1, bottomRadius := 1, thickness := 0.5, segments := 4,
            seed := 0, internalRibs := 0, ribThickness := 0.2,
            fitterType := "none", fitterDiameter := 1, fitterHeight := 1,
            twistAngle := some 90 } ⟨1, 0, 1⟩).z ^ 2
        = (1 : ℝ) ^ 2 + (1 : ℝ) ^ 2 := by
  have h := C10_spiral_twist_pure_rotation
    { type := "spiral_twist", silhouette := "straight", height := 2,
      topRadius := 1, bottomRadius := 1, thickness := 0.5, segments := 4,
      seed := 0, internalRibs := 0, ribThickness := 0.2,
      fitterType := "none", fitterDiameter := 1, fitterHeight := 1,
      twistAngle := some 90 } ⟨1, 0, 1⟩ rfl rfl rfl
  exact ⟨h.1, h.2.2.1⟩

/-- Concrete `spiral_twist` parameters with `twistAngle = 0`: a valid shape
(height 2, radii 1, thickness 0.5, 4 segments, no ribs, no fitter). -/
noncomputable def zeroTwistParams : LampshadeParams :=
  { type := "spiral_twist", silhouette := "straight", height := 2,
    topRadius := 1, bottomRadius := 1, thickness := 0.5, segments := 4,
    seed := 0, internalRibs := 0, ribThickness := 0.2,
    fitterType := "none", fitterDiameter := 1, fitterHeight := 1,
    twistAngle := some 0 }

/-- The outer profile of `zeroTwistParams` contains the mid-height sample
`(radius, y) = (1, 0)`. -/
theorem zeroTwist_profile_mem :
    ((1 : ℝ), (0 : ℝ)) ∈ getClosedProfilePoints zeroTwistParams 60 none := by
  simp only [getClosedProfilePoints]
  apply List.mem_append_left
  apply List.mem_map.mpr
  refine ⟨30, ?_, ?_⟩
  · exact List.mem_range.mpr (by norm_num)
  have hy : -zeroTwistParams.height / 2 +
      zeroTwistParams.height * (((30 : ℕ) : ℝ) / ((60 : ℕ) : ℝ)) = 0 := by
    simp only [zeroTwistParams]
    norm_num
  rw [hy]
  have hr0 : getRadiusAtHeight 0 zeroTwistParams = 1 := by
    simp +decide only [getRadiusAtHeight, zeroTwistParams]
    norm_num
  rw [hr0]
  norm_num

/-- The mid-height lathe vertex `(0, 0, 1)` is a vertex of the undisplaced
revolution mesh of `zeroTwistParams` (ring 0, profile sample 30). -/
theorem zeroTwist_lathe_mem :
    Vec3.mk 0 0 1 ∈ latheVertices (getClosedProfilePoints zeroTwistParams 60 none) 4 := by
  simp only [latheVertices]
  apply List.mem_flatMap.mpr
  refine ⟨0, List.mem_range.mpr (by norm_num), ?_⟩
  apply List.mem_map.mpr
  refine ⟨((1 : ℝ), (0 : ℝ)), zeroTwist_profile_mem, ?_⟩
  have hphi : ((0 : ℕ) : ℝ) * (2 * Real.pi / ((4 : ℕ) : ℝ)) = 0 := by norm_num
  rw [hphi]
  simp [Real.sin_zero, Real.cos_zero]

/-- With `twistAngle = 0` the JavaScript `||` default substitutes 360°, so
the mid-height vertex `(0, 0, 1)` is rotated by π to `(0, 0, −1)`. -/
theorem zeroTwist_transform_flips :
    spiralTwistTransform zeroTwistParams ⟨0, 0, 1⟩ = ⟨0, 0, -1⟩ := by
  simp only [spiralTwistTransform, zeroTwistParams, jsOrR, if_true]
  have hθ : ((0 : ℝ) + 2 / 2) / 2 * ((360 : ℝ) * (Real.pi / 180)) = Real.pi := by
    ring
  rw [hθ]
  simp [Real.sin_pi, Real.cos_pi]

/-- C3 (code bug): for `spiral_twist` with `twistAngle = 0` the generated
mesh is NOT the undisplaced revolution mesh.  The generator's positions are
the lathe vertices mapped through `spiralTwistTransform`; the lathe contains
the vertex `(0, 0, 1)`, but the transform sends it to `(0, 0, −1)` (a
rotation by π), because `twistAngle || 360` treats the value `0` as falsy
and substitutes the 360° default. -/
theorem C3_zero_twist_not_identity :
    (generateLampshadeGeometry zeroTwistParams).positions
        = (latheVertices (getClosedProfilePoints zeroTwistParams 60 none) 4).map
            (spiralTwistTransform zeroTwistParams)
    ∧ Vec3.mk 0 0 1 ∈ latheVertices (getClosedProfilePoints zeroTwistParams 60 none) 4
    ∧ spiralTwistTransform zeroTwistParams ⟨0, 0, 1⟩ = ⟨0, 0, -1⟩
    ∧ Vec3.mk 0 0 (-1) ∈ (generateLampshadeGeometry zeroTwistParams).positions := by
  have hpos : (generateLampshadeGeometry zeroTwistParams).positions
      = (latheVertices (getClosedProfilePoints zeroTwistParams 60 none) 4).map
          (spiralTwistTransform zeroTwistParams) := by
    simp +decide only [generateLampshadeGeometry, zeroTwistParams, if_true, if_false]
  refine ⟨hpos, zeroTwist_lathe_mem, zeroTwist_transform_flips, ?_⟩
  rw [hpos]
  exact List.mem_map.mpr ⟨⟨0, 0, 1⟩, zeroTwist_lathe_mem, zeroTwist_transform_flips⟩

/-- Length of a `flatMap` whose chunks all have the same length. -/
theorem length_flatMap_const {α β : Type} (l : List α) (f : α → List β) (c : ℕ)
    (h : ∀ a ∈ l, (f a).length = c) : (l.flatMap f).length = l.length * c := by
  induction l with
  | nil => simp
  | cons a t ih =>
      simp only [List.flatMap_cons, List.length_append, List.length_cons]
      rw [h a (List.mem_cons_self a t), ih (fun b hb => h b (List.mem_cons_of_mem a hb))]
      ring

/-- The lathe sweep emits one copy of the profile per ring. -/
theorem latheVertices_length (pts : List (ℝ × ℝ)) (n : ℕ) :
    (latheVertices pts n).length = (n + 1) * pts.length := by
  rw [latheVertices, length_flatMap_const _ _ pts.length (fun a _ => by simp)]
  simp

/-- The closed profile has `2·(steps + 1)` samples. -/
theorem getClosedProfilePoints_length (p : LampshadeParams) (steps : ℕ)
    (c : Option ℝ) :
    (getClosedProfilePoints p steps c).length = 2 * (steps + 1) := by
  simp [getClosedProfilePoints]
  ring

/-- The lathe index buffer has `segments·(numPoints − 1)·6` entries. -/
theorem latheIndices_length (np n : ℕ) :
    (latheIndices np n).length = n * ((np - 1) * 6) := by
  rw [latheIndices, length_flatMap_const _ _ ((np - 1) * 6) ?_]
  · simp
  · intro a _
    rw [length_flatMap_const _ _ 6 (fun b _ => by simp)]
    simp

/-- C1 (no validation in the source): `generateLampshadeGeometry` builds and
returns a complete mesh for EVERY parameter record of the displacement
family — including segment counts below 3, negative radii, non-positive
heights and oversized thickness — with `(segments+1)·122` vertices and
`segments·726` indices.  No `InvalidParameter` failure path exists. -/
theorem C1_no_validation (p : LampshadeParams) (h1 : p.type = "ribbed_drum")
    (h2 : p.internalRibs = 0) (h3 : p.fitterType = "none") :
    (generateLampshadeGeometry p).positions.length = (p.segments + 1) * 122 ∧
    (generateLampshadeGeometry p).indexList.length = p.segments * 726 := by
  have hred : generateLampshadeGeometry p =
      { positions := (latheVertices (getClosedProfilePoints p 60 none)
          p.segments).map (displacedVertex p),
        indexList := latheIndices (getClosedProfilePoints p 60 none).length
          p.segments } := by
    simp +decide only [generateLampshadeGeometry, h1, h2, h3, if_true, if_false]
  rw [hred]
  constructor
  · simp only [List.length_map, latheVertices_length, getClosedProfilePoints_length]
  · rw [latheIndices_length, getClosedProfilePoints_length]

/-- Concrete invalid parameters: `segments = 2 < 3`. -/
noncomputable def twoSegmentParams : LampshadeParams :=
  { type := "ribbed_drum", silhouette := "straight", height := 15, topRadius := 5,
    bottomRadius := 8, thickness := 0.8, segments := 2, seed := 0,
    internalRibs := 0, ribThickness := 0.2, fitterType := "none",
    fitterDiameter := 1, fitterHeight := 1, ribCount := some 24,
    ribDepth := some 0.4 }

/-- C1 counterexample: with `segments = 2` (invalid per the claim) the
generator does not fail — it synchronously builds and returns a full mesh
with 366 vertices and 1452 indices. -/
theorem C1_counterexample :
    twoSegmentParams.segments = 2 ∧
    (generateLampshadeGeometry twoSegmentParams).positions.length = 366 ∧
    (generateLampshadeGeometry twoSegmentParams).indexList.length = 1452 := by
  have hred : generateLampshadeGeometry twoSegmentParams =
      { positions := (latheVertices (getClosedProfilePoints twoSegmentParams 60 none)
          (2 : ℕ)).map (displacedVertex twoSegmentParams),
        indexList := latheIndices
          (getClosedProfilePoints twoSegmentParams 60 none).length 2 } := by
    simp +decide only [generateLampshadeGeometry, twoSegmentParams, if_true, if_false]
  refine ⟨rfl, ?_, ?_⟩
  · rw [hred]
    simp only [List.length_map, latheVertices_length, getClosedProfilePoints_length]
  · rw [hred]
    simp only [latheIndices_length, getClosedProfilePoints_length]

/-- Witness for C1 at the concrete invalid input. -/
theorem C1_no_validation_witness :
    (generateLampshadeGeometry twoSegmentParams).positions.length = (2 + 1) * 122 ∧
    (generateLampshadeGeometry twoSegmentParams).indexList.length = 2 * 726 := by
  exact C1_no_validation twoSegmentParams rfl rfl rfl

/-- C2 (silent fallback in the source): for every shape type outside the
seven cases handled by the `switch`, `generateLampshadeGeometry` takes the
`default` branch and silently returns the plain closed-profile revolution
mesh — it never fails with `UnsupportedShapeType`. -/
theorem C2_unknown_type_fallback (p : LampshadeParams)
    (h : p.type ∉ (["organic_cell", "perlin_noise", "wave_shell", "ribbed_drum",
      "slotted", "lattice", "spiral_twist"] : List String))
    (h2 : p.internalRibs = 0) (h3 : p.fitterType = "none") :
    generateLampshadeGeometry p =
      { positions := latheVertices (getClosedProfilePoints p 60 none) p.segments,
        indexList := latheIndices (getClosedProfilePoints p 60 none).length
          p.segments } := by
  simp only [List.mem_cons, List.mem_singleton, not_or] at h
  obtain ⟨e1, e2, e3, e4, e5, e6, e7⟩ := h
  simp +decide only [generateLampshadeGeometry, h2, h3, e1, e2, e3, e4, e5, e6, e7,
    if_true, if_false, or_self, or_false, false_or, lt_self_iff_false]

/-- Concrete shape type outside the known enumerated set. -/
noncomputable def unknownTypeParams : LampshadeParams :=
  { type := "hexagon_prism", silhouette := "straight", height := 10, topRadius := 4,
    bottomRadius := 6, thickness := 0.8, segments := 16, seed := 0,
    internalRibs := 0, ribThickness := 0.2, fitterType := "none",
    fitterDiameter := 1, fitterHeight := 1 }

/-- C2 counterexample: with the unknown type `"hexagon_prism"` the generator
silently produces the default revolution mesh (17·122 vertices) instead of
failing closed. -/
theorem C2_counterexample :
    generateLampshadeGeometry unknownTypeParams =
      { positions := latheVertices (getClosedProfilePoints unknownTypeParams 60 none) 16,
        indexList := latheIndices
          (getClosedProfilePoints unknownTypeParams 60 none).length 16 }
    ∧ (generateLampshadeGeometry unknownTypeParams).positions.length = 2074 := by
  have hred : generateLampshadeGeometry unknownTypeParams =
      { positions := latheVertices (getClosedProfilePoints unknownTypeParams 60 none) 16,
        indexList := latheIndices
          (getClosedProfilePoints unknownTypeParams 60 none).length 16 } := by
    simp +decide only [generateLampshadeGeometry, unknownTypeParams, if_true, if_false]
  refine ⟨hred, ?_⟩
  rw [hred]
  simp only [latheVertices_length, getClosedProfilePoints_length]

/-- Witness for C2 at a second concrete unknown type. -/
noncomputable def unknownTypeParamsB : LampshadeParams :=
  { type := "star_prism", silhouette := "straight", height := 12, topRadius := 3,
    bottomRadius := 5, thickness := 0.6, segments := 8, seed := 0,
    internalRibs := 0, ribThickness := 0.2, fitterType := "none",
    fitterDiameter := 1, fitterHeight := 1 }

/-- Witness for C2's amended statement. -/
theorem C2_unknown_type_fallback_witness :
    generateLampshadeGeometry unknownTypeParamsB =
      { positions := latheVertices (getClosedProfilePoints unknownTypeParamsB 60 none)
          unknownTypeParamsB.segments,
        indexList := latheIndices
          (getClosedProfilePoints unknownTypeParamsB 60 none).length
          unknownTypeParamsB.segments } := by
  exact C2_unknown_type_fallback unknownTypeParamsB (by decide) rfl rfl

/-- The source raster: RGBA bytes row-major, four entries per pixel
(`ImageData` in the source). -/
structure ImageSample where
  width : ℕ
  height : ℕ
  data : List ℕ

/-- Parameter record of the lithophane generator (`LithophaneParams` in the
source).  `resolution` is the integral grid row count. -/
structure LithophaneParams where
  type : String
  width : ℚ
  height : ℚ
  minThickness : ℚ
  maxThickness : ℚ
  baseThickness : ℚ
  curveRadius : ℚ
  resolution : ℕ
  inverted : Bool
  brightness : ℚ
  contrast : ℚ
  smoothing : ℚ

/-- Storing the exact ratio `num/den` into a `Uint8ClampedArray` entry:
clamp to `[0, 255]` and round to the nearest integer, ties to even.  The
source stores the float `sum / count`; here the division and the store are
modelled together, exactly, over naturals. -/
def clampRoundRatio (num den : ℕ) : ℕ :=
  if den = 0 then 0
  else if 255 * den ≤ num then 255
  else
    let q := num / den
    let rem := num % den
    if 2 * rem < den then q
    else if den < 2 * rem then q + 1
    else if q % 2 = 0 then q else q + 1

/-- Read one byte of a raster buffer at a (possibly signed) index. -/
def byteAt (d : List ℕ) (i : ℤ) : ℕ :=
  if 0 ≤ i then d.getD i.toNat 0 else 0

/-- One pixel update of `applySmoothing`: average the box kernel (edge
clamped) over the CURRENT buffer and write the R/G/B bytes back in place.
Later pixels of the same pass therefore read already-smoothed values. -/
def smoothPixel (w h r : ℕ) (d : List ℕ) (x y : ℕ) : List ℕ :=
  let ks := (List.range (2 * r + 1)).map (fun (k : ℕ) => (k : ℤ) - (r : ℤ))
  let samples := ks.flatMap (fun ky => ks.map (fun kx =>
    let px := min ((w : ℤ) - 1) (max 0 ((x : ℤ) + kx))
    let py := min ((h : ℤ) - 1) (max 0 ((y : ℤ) + ky))
    (py * (w : ℤ) + px) * 4))
  let count := samples.length
  let rSum := (samples.map (fun idx => byteAt d idx)).sum
  let gSum := (samples.map (fun idx => byteAt d (idx + 1))).sum
  let bSum := (samples.map (fun idx => byteAt d (idx + 2))).sum
  let out := (y * w + x) * 4
  ((d.set out (clampRoundRatio rSum count)).set (out + 1)
    (clampRoundRatio gSum count)).set (out + 2) (clampRoundRatio bSum count)

/-- `applySmoothing`: start from a fresh copy of the image bytes, then run
two raster-order passes of the in-place box-kernel average with radius
`⌊radius⌋`.  The alpha byte of every pixel is never written. -/
def applySmoothing (img : ImageSample) (radius : ℚ) : List ℕ :=
  let r := (⌊radius⌋).toNat
  (List.range 2).foldl (fun d _ =>
    (List.range img.height).foldl (fun d y =>
      (List.range img.width).foldl (fun d x =>
        smoothPixel img.width img.height r d x y) d) d) img.data

/-- Modelled from the spec: "a two-pass box blur of radius = floor(smoothing)
over R/G/B channels (alpha untouched)" — ONE pass of a true box blur, every
output pixel averaging the INPUT buffer (snapshot semantics) over the edge
clamped kernel window. -/
def boxBlurPass (w h r : ℕ) (d : List ℕ) : List ℕ :=
  (List.range (w * h)).flatMap (fun (pIdx : ℕ) =>
    let x := pIdx % w
    let y := pIdx / w
    let ks := (List.range (2 * r + 1)).map (fun (k : ℕ) => (k : ℤ) - (r : ℤ))
    let samples := ks.flatMap (fun ky => ks.map (fun kx =>
      let px := min ((w : ℤ) - 1) (max 0 ((x : ℤ) + kx))
      let py := min ((h : ℤ) - 1) (max 0 ((y : ℤ) + ky))
      (py * (w : ℤ) + px) * 4))
    let count := samples.length
    [clampRoundRatio ((samples.map (fun idx => byteAt d idx)).sum) count,
     clampRoundRatio ((samples.map (fun idx => byteAt d (idx + 1))).sum) count,
     clampRoundRatio ((samples.map (fun idx => byteAt d (idx + 2))).sum) count,
     d.getD (4 * pIdx + 3) 0])

/-- Modelled from the spec: the two-pass box blur — the snapshot-semantics
box blur applied twice. -/
def boxBlurTwiceSpec (img : ImageSample) (radius : ℚ) : List ℕ :=
  let r := (⌊radius⌋).toNat
  boxBlurPass img.width img.height r (boxBlurPass img.width img.height r img.data)

/-- `gridX = Math.floor(resolution * aspect)` where `aspect` is the image
aspect ratio. -/
def gridXc (img : ImageSample) (p : LithophaneParams) : ℕ :=
  (⌊(p.resolution : ℚ) * ((img.width : ℚ) / (img.height : ℚ))⌋).toNat

/-- `gridY = resolution`. -/
def gridYc (p : LithophaneParams) : ℕ := p.resolution

/-- The raster actually sampled: the smoothed copy when `smoothing > 0`,
otherwise the original bytes. -/
def processedData (img : ImageSample) (p : LithophaneParams) : List ℕ :=
  if 0 < p.smoothing then applySmoothing img p.smoothing else img.data

/-- Brightness/contrast adjustment of one channel:
`clamp(0, 255, cFactor·(val + brightness − 128) + 128)` with
`cFactor = 259·(contrast+255)/(255·(259−contrast))`. -/
def processChannel (p : LithophaneParams) (val : ℚ) : ℚ :=
  let cFactor := 259 * (p.contrast + 255) / (255 * (259 - p.contrast))
  min 255 (max 0 (cFactor * (val + p.brightness - 128) + 128))

/-- `getPixelGray`: adjusted luminance of one texel, inverted as `1 − gray`
unless the `inverted` flag is set. -/
def getPixelGray (img : ImageSample) (p : LithophaneParams) (px py : ℤ) : ℚ :=
  let d := processedData img p
  let idx := (py * (img.width : ℤ) + px) * 4
  let r : ℚ := (byteAt d idx : ℕ)
  let g : ℚ := (byteAt d (idx + 1) : ℕ)
  let b : ℚ := (byteAt d (idx + 2) : ℕ)
  let gray := (processChannel p r * 0.299 + processChannel p g * 0.587 +
    processChannel p b * 0.114) / 255
  if p.inverted then gray else 1 - gray

/-- `getInterpolatedVal`: bilinear blend of the four neighbouring texel
values at the continuous image coordinate `(u·(W−1), (1−v)·(H−1))`. -/
def getInterpolatedVal (img : ImageSample) (p : LithophaneParams) (u v : ℚ) : ℚ :=
  let x := u * ((img.width : ℚ) - 1)
  let y := (1 - v) * ((img.height : ℚ) - 1)
  let x1 : ℤ := ⌊x⌋
  let y1 : ℤ := ⌊y⌋
  let x2 : ℤ := min (x1 + 1) ((img.width : ℤ) - 1)
  let y2 : ℤ := min (y1 + 1) ((img.height : ℤ) - 1)
  let dx := x - (x1 : ℚ)
  let dy := y - (y1 : ℚ)
  let v11 := getPixelGray img p x1 y1
  let v21 := getPixelGray img p x2 y1
  let v12 := getPixelGray img p x1 y2
  let v22 := getPixelGray img p x2 y2
  v11 * (1 - dx) * (1 - dy) + v21 * dx * (1 - dy) +
    v12 * (1 - dx) * dy + v22 * dx * dy

/-- The relief depth at grid coordinate `(u, v)`:
`baseThickness + minThickness + bVal·(maxThickness − minThickness)`. -/
def reliefDepth (img : ImageSample) (p : LithophaneParams) (u v : ℚ) : ℚ :=
  p.baseThickness + p.minThickness +
    getInterpolatedVal img p u v * (p.maxThickness - p.minThickness)

/-- The grid sample coordinate `u = i/(gridX − 1)` (JavaScript number
arithmetic; `gridX − 1` is signed). -/
def gridU (img : ImageSample) (p : LithophaneParams) (i : ℕ) : ℚ :=
  (i : ℚ) / ((gridXc img p : ℚ) - 1)

/-- The grid sample coordinate `v = j/(gridY − 1)`. -/
def gridV (p : LithophaneParams) (j : ℕ) : ℚ :=
  (j : ℚ) / ((gridYc p : ℚ) - 1)

/-- Front-surface vertex at grid cell `(i, j)`: flat carrier at
`z = reliefDepth`, else projected onto the arc of radius
`curveRadius + reliefDepth`. -/
noncomputable def frontVertex (img : ImageSample) (p : LithophaneParams)
    (i j : ℕ) : ℝ × ℝ × ℝ :=
  let u := gridU img p i
  let v := gridV p j
  let th := reliefDepth img p u v
  let xPos := (u - 1 / 2) * p.width
  let yPos := (v - 1 / 2) * p.height
  if p.type = "flat" then ((xPos : ℝ), (yPos : ℝ), (th : ℝ))
  else
    let angleRange : ℝ :=
      if p.type = "cylinder" then Real.pi * 2 else ((p.width / p.curveRadius : ℚ) : ℝ)
    let angle := ((u - 1 / 2 : ℚ) : ℝ) * angleRange
    let r := ((p.curveRadius + th : ℚ) : ℝ)
    (r * Real.sin angle, (yPos : ℝ), r * Real.cos angle - ((p.curveRadius : ℚ) : ℝ))

/-- Back-surface vertex at grid cell `(i, j)`: the same grid at depth 0
(flat) or radius `curveRadius` (curved). -/
noncomputable def backVertex (img : ImageSample) (p : LithophaneParams)
    (i j : ℕ) : ℝ × ℝ × ℝ :=
  let u := gridU img p i
  let v := gridV p j
  let xPos := (u - 1 / 2) * p.width
  let yPos := (v - 1 / 2) * p.height
  if p.type = "flat" then ((xPos : ℝ), (yPos : ℝ), (0 : ℝ))
  else
    let angleRange : ℝ :=
      if p.type = "cylinder" then Real.pi * 2 else ((p.width / p.curveRadius : ℚ) : ℝ)
    let angle := ((u - 1 / 2 : ℚ) : ℝ) * angleRange
    let r := ((p.curveRadius : ℚ) : ℝ)
    (r * Real.sin angle, (yPos : ℝ), r * Real.cos angle - ((p.curveRadius : ℚ) : ℝ))

/-- The flat front vertex buffer (three floats per grid cell, row-major). -/
noncomputable def lithoFrontList (img : ImageSample) (p : LithophaneParams) : List ℝ :=
  (List.range (gridYc p)).flatMap (fun (j : ℕ) =>
    (List.range (gridXc img p)).flatMap (fun (i : ℕ) =>
      let w := frontVertex img p i j
      [w.1, w.2.1, w.2.2]))

/-- The flat back vertex buffer. -/
noncomputable def lithoBackList (img : ImageSample) (p : LithophaneParams) : List ℝ :=
  (List.range (gridYc p)).flatMap (fun (j : ℕ) =>
    (List.range (gridXc img p)).flatMap (fun (i : ℕ) =>
      let w := backVertex img p i j
      [w.1, w.2.1, w.2.2]))

/-- Front and back grid quads: per interior cell, two front triangles (CCW)
and two back triangles (CW), the back grid offset by `off`. -/
def quadBlock (gX gY off : ℕ) : List ℕ :=
  (List.range (gY - 1)).flatMap (fun (j : ℕ) =>
    (List.range (gX - 1)).flatMap (fun (i : ℕ) =>
      let a := j * gX + i
      let b := j * gX + (i + 1)
      let c := (j + 1) * gX + i
      let d := (j + 1) * gX + (i + 1)
      [a, c, b, b, c, d, a + off, b + off, c + off, b + off, d + off, c + off]))

/-- Bottom and top perimeter wall strips connecting front to back. -/
def sideBlockTB (gX gY off : ℕ) : List ℕ :=
  (List.range (gX - 1)).flatMap (fun (i : ℕ) =>
    let ts := (gY - 1) * gX
    [i, i + 1, i + off, i + 1, i + 1 + off, i + off,
     ts + (i + 1), ts + i, ts + (i + 1) + off, ts + i, ts + i + off, ts + (i + 1) + off])

/-- Left and right perimeter wall strips connecting front to back. -/
def sideBlockLR (gX gY off : ℕ) : List ℕ :=
  (List.range (gY - 1)).flatMap (fun (j : ℕ) =>
    let l1 := j * gX
    let l2 := (j + 1) * gX
    let r1 := j * gX + (gX - 1)
    let r2 := (j + 1) * gX + (gX - 1)
    [l2, l1, l2 + off, l1, l1 + off, l2 + off,
     r1, r2, r1 + off, r2, r2 + off, r1 + off])

/-- The full index buffer of the relief solid; `backOffset` is the front
buffer's vertex count (`vertices.length / 3`). -/
noncomputable def lithoIndexList (img : ImageSample) (p : LithophaneParams) : List ℕ :=
  let gX := gridXc img p
  let gY := gridYc p
  let off := (lithoFrontList img p).length / 3
  quadBlock gX gY off ++ sideBlockTB gX gY off ++ sideBlockLR gX gY off

/-- A relief mesh: the flat position float list and the triangle index
list, as handed to `THREE.BufferGeometry`. -/
structure LithoMesh where
  positionList : List ℝ
  indexList : List ℕ

/-- `generateLithophaneGeometry`: front grid, back grid, and the quad and
wall index buffers.  The source performs no parameter validation and has no
failure path, so the embedding is a total function into `LithoMesh`. -/
noncomputable def generateLithophaneGeometry (img : ImageSample)
    (p : LithophaneParams) : LithoMesh :=
  { positionList := lithoFrontList img p ++ lithoBackList img p,
    indexList := lithoIndexList img p }

/-- C4: for the `straight` silhouette the profile radius before clamping is
exactly the linear interpolation between `topRadius` and `bottomRadius`:
at the height sample `y = -H/2 + H·t` the radius equals
`topRadius + (bottomRadius - topRadius)·t`. -/
theorem C4_straight_profile_linear (p : LampshadeParams) (t : ℝ)
    (hs : p.silhouette = "straight") (hh : 0 < p.height) :
    getRadiusAtHeight (-p.height / 2 + p.height * t) p
      = p.topRadius + (p.bottomRadius - p.topRadius) * t := by
  simp only [getRadiusAtHeight, hs]
  rw [if_neg (by decide), if_neg (by decide), if_neg (by decide), if_neg (by decide)]
  have ht : (-p.height / 2 + p.height * t + p.height / 2) / p.height = t := by
    field_simp
  rw [ht]

/-- Witness for C4 at concrete parameters. -/
theorem C4_straight_profile_linear_witness :
    getRadiusAtHeight (-(15 : ℝ) / 2 + 15 * (1 / 3))
        { type := "ribbed_drum", silhouette := "straight", height := 15,
          topRadius := 5, bottomRadius := 8, thickness := 0.8, segments := 64,
          seed := 0, internalRibs := 0, ribThickness := 0.2,
          fitterType := "none", fitterDiameter := 1, fitterHeight := 1 }
      = 5 + (8 - 5) * (1 / 3) := by
  exact C4_straight_profile_linear _ (1 / 3) rfl (by norm_num)

/-- C5: for `ribbed_drum`, the radial displacement equals
`sin(angle·ribCount)·ribDepth`; it is periodic in the angle with period
`2π/ribCount` and bounded in magnitude by `ribDepth`, for every angle and
height. -/
theorem C5_ribbed_drum_displacement (p : LampshadeParams) (angle y : ℝ)
    (n : ℕ) (d : ℝ) (ht : p.type = "ribbed_drum")
    (hn : p.ribCount = some n) (hn0 : 0 < n)
    (hd : p.ribDepth = some d) (hd0 : 0 < d) :
    getDisplacementAt angle y p = Real.sin (angle * (n : ℝ)) * d ∧
    getDisplacementAt (angle + 2 * Real.pi / (n : ℝ)) y p
      = getDisplacementAt angle y p ∧
    |getDisplacementAt angle y p| ≤ d := by
  have hbase : ∀ a : ℝ, getDisplacementAt a y p = Real.sin (a * (n : ℝ)) * d := by
    intro a
    simp only [getDisplacementAt, ht, if_pos rfl, hn, hd, jsOrN, jsOrR]
    rw [if_neg hn0.ne', if_neg hd0.ne']
    simp only [if_true]
  refine ⟨hbase angle, ?_, ?_⟩
  · rw [hbase, hbase]
    have harg : (angle + 2 * Real.pi / (n : ℝ)) * (n : ℝ)
        = angle * (n : ℝ) + 2 * Real.pi := by
      have hne : (n : ℝ) ≠ 0 := Nat.cast_ne_zero.mpr hn0.ne'
      field_simp
    rw [harg, Real.sin_add_two_pi]
  · rw [hbase]
    calc |Real.sin (angle * (n : ℝ)) * d| = |Real.sin (angle * (n : ℝ))| * |d| :=
          abs_mul _ _
      _ ≤ 1 * |d| := by
          have := abs_le.mpr ⟨Real.neg_one_le_sin (angle * (n : ℝ)),
            Real.sin_le_one (angle * (n : ℝ))⟩
          exact mul_le_mul_of_nonneg_right this (abs_nonneg d)
      _ = d := by rw [one_mul, abs_of_pos hd0]

/-- Witness for C5 at concrete parameters. -/
theorem C5_ribbed_drum_displacement_witness :
    getDisplacementAt 1 0
        { type := "ribbed_drum", silhouette := "straight", height := 15,
          topRadius := 5, bottomRadius := 8, thickness := 0.8, segments := 64,
          seed := 0, internalRibs := 0, ribThickness := 0.2,
          fitterType := "none", fitterDiameter := 1, fitterHeight := 1,
          ribCount := some 24, ribDepth := some 0.4 }
      = Real.sin (1 * (24 : ℕ)) * 0.4 := by
  exact (C5_ribbed_drum_displacement _ 1 0 24 0.4 rfl rfl (by norm_num) rfl
    (by norm_num)).1


/-- Invariant preservation through a left fold. -/
theorem foldl_preserves {α β : Type} (P : β → Prop) (f : β → α → β) (l : List α)
    (b : β) (hb : P b) (hf : ∀ d a, P d → P (f d a)) : P (l.foldl f b) := by
  induction l generalizing b with
  | nil => exact hb
  | cons a t ih => exact ih _ (hf _ _ hb)

/-- `smoothPixel` writes only the R/G/B bytes of one pixel: the length and
every alpha byte (index ≡ 3 mod 4) are preserved. -/
theorem smoothPixel_preserves (w h r : ℕ) (base d : List ℕ) (x y : ℕ)
    (hd : d.length = base.length ∧ ∀ k, k % 4 = 3 → d.getD k 0 = base.getD k 0) :
    (smoothPixel w h r d x y).length = base.length ∧
      ∀ k, k % 4 = 3 → (smoothPixel w h r d x y).getD k 0 = base.getD k 0 := by
  obtain ⟨hlen, halpha⟩ := hd
  constructor
  · simp [smoothPixel, List.length_set, hlen]
  · intro k hk
    simp only [smoothPixel]
    rw [List.getD_eq_getElem?_getD, List.getElem?_set_ne (by omega),
      List.getElem?_set_ne (by omega), List.getElem?_set_ne (by omega),
      ← List.getD_eq_getElem?_getD]
    exact halpha k hk

/-- `applySmoothing` preserves the buffer length and every alpha byte of the
image (and, being a pure function of a fresh copy, leaves the input record
untouched). -/
theorem C8_alpha_untouched (img : ImageSample) (radius : ℚ) :
    (applySmoothing img radius).length = img.data.length ∧
    ∀ k, k % 4 = 3 → (applySmoothing img radius).getD k 0 = img.data.getD k 0 := by
  rw [applySmoothing]
  have hbase : img.data.length = img.data.length ∧
      ∀ k, k % 4 = 3 → img.data.getD k 0 = img.data.getD k 0 := ⟨rfl, fun _ _ => rfl⟩
  refine foldl_preserves (fun (d : List ℕ) => d.length = img.data.length ∧
    ∀ k, k % 4 = 3 → d.getD k 0 = img.data.getD k 0) _ _ _ hbase ?_
  intro d _ hd
  refine foldl_preserves (fun (d : List ℕ) => d.length = img.data.length ∧
    ∀ k, k % 4 = 3 → d.getD k 0 = img.data.getD k 0) _ _ _ hd ?_
  intro d' y hd'
  refine foldl_preserves (fun (d : List ℕ) => d.length = img.data.length ∧
    ∀ k, k % 4 = 3 → d.getD k 0 = img.data.getD k 0) _ _ _ hd' ?_
  intro d'' x hd''
  exact smoothPixel_preserves _ _ _ _ _ _ _ hd''

/-- Witness for the alpha-preservation statement of C8. -/
theorem C8_alpha_untouched_witness :
    (applySmoothing ⟨2, 1, [0, 0, 0, 7, 255, 255, 255, 9]⟩ 1).getD 3 0
      = (([0, 0, 0, 7, 255, 255, 255, 9] : List ℕ)).getD 3 0 :=
  (C8_alpha_untouched ⟨2, 1, [0, 0, 0, 7, 255, 255, 255, 9]⟩ 1).2 3 (by decide)

/-- A 2×1 grey-ramp test image (R=G=B: 0 then 255; alphas 7 and 9). -/
def smoothTestImage : ImageSample := ⟨2, 1, [0, 0, 0, 7, 255, 255, 255, 9]⟩

/-- C8 counterexample: with smoothing 1 the source's smoothing pass is NOT a
two-pass box blur.  `applySmoothing` updates the buffer in place, so later
pixels of a pass average already-smoothed neighbours: on the test image it
yields R-bytes (123, 173), while the true two-pass box blur of radius 1
yields (113, 142).  The alpha bytes (7, 9) are untouched by both. -/
theorem C8_counterexample :
    (0 : ℚ) < 1 ∧
    applySmoothing smoothTestImage 1 ≠ boxBlurTwiceSpec smoothTestImage 1 ∧
    applySmoothing smoothTestImage 1 = [123, 123, 123, 7, 173, 173, 173, 9] ∧
    boxBlurTwiceSpec smoothTestImage 1 = [113, 113, 113, 7, 142, 142, 142, 9] := by
  exact ⟨by norm_num, by decide, by decide, by decide⟩

/-- The brightness/contrast clamp keeps every channel value non-negative. -/
theorem processChannel_nonneg (p : LithophaneParams) (v : ℚ) :
    0 ≤ processChannel p v := by
  simp only [processChannel]
  exact le_min (by norm_num) (le_max_left 0 _)

/-- The brightness/contrast clamp keeps every channel value at most 255. -/
theorem processChannel_le (p : LithophaneParams) (v : ℚ) :
    processChannel p v ≤ 255 := by
  simp only [processChannel]
  exact min_le_left _ _

/-- The adjusted, (un)inverted luminance of a texel lies in `[0, 1]`. -/
theorem getPixelGray_bounds (img : ImageSample) (p : LithophaneParams) (px py : ℤ) :
    0 ≤ getPixelGray img p px py ∧ getPixelGray img p px py ≤ 1 := by
  have key : ∀ A B C : ℚ, 0 ≤ A → A ≤ 255 → 0 ≤ B → B ≤ 255 → 0 ≤ C → C ≤ 255 →
      0 ≤ (A * 0.299 + B * 0.587 + C * 0.114) / 255 ∧
        (A * 0.299 + B * 0.587 + C * 0.114) / 255 ≤ 1 := by
    intro A B C hA0 hA1 hB0 hB1 hC0 hC1
    constructor
    · apply div_nonneg _ (by norm_num)
      nlinarith
    · rw [div_le_one (by norm_num)]
      nlinarith
  simp only [getPixelGray]
  obtain ⟨hg0, hg1⟩ := key _ _ _ (processChannel_nonneg _ _) (processChannel_le _ _)
    (processChannel_nonneg _ _) (processChannel_le _ _) (processChannel_nonneg _ _)
    (processChannel_le _ _)
  split_ifs
  · exact ⟨hg0, hg1⟩
  · constructor <;> linarith

/-- A bilinear blend with fractional weights of values in `[0, 1]` stays in
`[0, 1]`. -/
theorem bilinear_bounds (a b v11 v21 v12 v22 : ℚ)
    (ha0 : 0 ≤ a) (ha1 : a < 1) (hb0 : 0 ≤ b) (hb1 : b < 1)
    (h11 : 0 ≤ v11 ∧ v11 ≤ 1) (h21 : 0 ≤ v21 ∧ v21 ≤ 1)
    (h12 : 0 ≤ v12 ∧ v12 ≤ 1) (h22 : 0 ≤ v22 ∧ v22 ≤ 1) :
    0 ≤ v11 * (1 - a) * (1 - b) + v21 * a * (1 - b) + v12 * (1 - a) * b + v22 * a * b
    ∧ v11 * (1 - a) * (1 - b) + v21 * a * (1 - b) + v12 * (1 - a) * b + v22 * a * b
        ≤ 1 := by
  obtain ⟨h11a, h11b⟩ := h11
  obtain ⟨h21a, h21b⟩ := h21
  obtain ⟨h12a, h12b⟩ := h12
  obtain ⟨h22a, h22b⟩ := h22
  have wa : (0 : ℚ) ≤ 1 - a := by linarith
  have wb : (0 : ℚ) ≤ 1 - b := by linarith
  constructor
  · nlinarith [mul_nonneg (mul_nonneg h11a wa) wb, mul_nonneg (mul_nonneg h21a ha0) wb,
      mul_nonneg (mul_nonneg h12a wa) hb0, mul_nonneg (mul_nonneg h22a ha0) hb0]
  · nlinarith [mul_nonneg (mul_nonneg (sub_nonneg.mpr h11b) wa) wb,
      mul_nonneg (mul_nonneg (sub_nonneg.mpr h21b) ha0) wb,
      mul_nonneg (mul_nonneg (sub_nonneg.mpr h12b) wa) hb0,
      mul_nonneg (mul_nonneg (sub_nonneg.mpr h22b) ha0) hb0]

/-- The bilinearly blended depth fraction lies in `[0, 1]` for every sample
coordinate. -/
theorem getInterpolatedVal_bounds (img : ImageSample) (p : LithophaneParams)
    (u v : ℚ) :
    0 ≤ getInterpolatedVal img p u v ∧ getInterpolatedVal img p u v ≤ 1 := by
  simp only [getInterpolatedVal]
  exact bilinear_bounds _ _ _ _ _ _ (Int.fract_nonneg _) (Int.fract_lt_one _)
    (Int.fract_nonneg _) (Int.fract_lt_one _)
    (getPixelGray_bounds img p _ _) (getPixelGray_bounds img p _ _)
    (getPixelGray_bounds img p _ _) (getPixelGray_bounds img p _ _)

/-- C6: every relief depth computed by the generator equals
`baseThickness + minThickness + depthFraction·(maxThickness − minThickness)`
where the depth fraction is the bilinearly blended, brightness/contrast
adjusted, (un)inverted luminance `getInterpolatedVal`; the fraction lies in
`[0, 1]`, so the depth lies in
`[baseThickness + minThickness, baseThickness + maxThickness]`, the depth is
monotone in the fraction, and on the flat carrier the front-surface vertex
`z` is exactly that depth. -/
theorem C6_relief_depth (img : ImageSample) (p : LithophaneParams)
    (u v f1 f2 : ℚ) (hmm : p.minThickness ≤ p.maxThickness) (hf : f1 ≤ f2) :
    reliefDepth img p u v = p.baseThickness + p.minThickness +
        getInterpolatedVal img p u v * (p.maxThickness - p.minThickness)
    ∧ 0 ≤ getInterpolatedVal img p u v
    ∧ getInterpolatedVal img p u v ≤ 1
    ∧ p.baseThickness + p.minThickness ≤ reliefDepth img p u v
    ∧ reliefDepth img p u v ≤ p.baseThickness + p.maxThickness
    ∧ p.baseThickness + p.minThickness + f1 * (p.maxThickness - p.minThickness)
        ≤ p.baseThickness + p.minThickness + f2 * (p.maxThickness - p.minThickness)
    ∧ (p.type = "flat" → ∀ i j : ℕ,
        (frontVertex img p i j).2.2
          = ((reliefDepth img p (gridU img p i) (gridV p j) : ℚ) : ℝ)) := by
  obtain ⟨hb0, hb1⟩ := getInterpolatedVal_bounds img p u v
  refine ⟨rfl, hb0, hb1, ?_, ?_, ?_, ?_⟩
  · simp only [reliefDepth]
    nlinarith [mul_nonneg hb0 (sub_nonneg.mpr hmm)]
  · simp only [reliefDepth]
    nlinarith [mul_nonneg (sub_nonneg.mpr hb1) (sub_nonneg.mpr hmm)]
  · nlinarith [mul_nonneg (sub_nonneg.mpr hf) (sub_nonneg.mpr hmm)]
  · intro ht i j
    simp [frontVertex, ht]

/-- A 2×2 all-white RGBA image. -/
def whiteImage : ImageSample :=
  ⟨2, 2, [255, 255, 255, 255, 255, 255, 255, 255,
          255, 255, 255, 255, 255, 255, 255, 255]⟩

/-- The spec's concrete flat lithophane scenario parameters. -/
def flatParams : LithophaneParams :=
  { type := "flat", width := 10, height := 10, minThickness := 0.6,
    maxThickness := 3.0, baseThickness := 0, curveRadius := 50,
    resolution := 50, inverted := false, brightness := 0, contrast := 0,
    smoothing := 0 }

/-- Witness for C6 at the concrete flat scenario. -/
theorem C6_relief_depth_witness :
    0 ≤ getInterpolatedVal whiteImage flatParams 0 0 ∧
    reliefDepth whiteImage flatParams 0 0 ≤
      flatParams.baseThickness + flatParams.maxThickness := by
  have h := C6_relief_depth whiteImage flatParams 0 0 0 1 (by norm_num [flatParams]) (by norm_num)
  exact ⟨h.2.1, h.2.2.2.2.1⟩

/-- The front vertex buffer holds three floats per grid cell. -/
theorem lithoFrontList_length (img : ImageSample) (p : LithophaneParams) :
    (lithoFrontList img p).length = gridYc p * (gridXc img p * 3) := by
  rw [lithoFrontList, length_flatMap_const _ _ (gridXc img p * 3) ?_]
  · simp
  · intro a _
    rw [length_flatMap_const _ _ 3 (fun b _ => by simp)]
    simp

/-- The back vertex buffer holds three floats per grid cell. -/
theorem lithoBackList_length (img : ImageSample) (p : LithophaneParams) :
    (lithoBackList img p).length = gridYc p * (gridXc img p * 3) := by
  rw [lithoBackList, length_flatMap_const _ _ (gridXc img p * 3) ?_]
  · simp
  · intro a _
    rw [length_flatMap_const _ _ 3 (fun b _ => by simp)]
    simp

/-- The quad block emits 12 indices per interior cell. -/
theorem quadBlock_length (gX gY off : ℕ) :
    (quadBlock gX gY off).length = (gY - 1) * ((gX - 1) * 12) := by
  rw [quadBlock, length_flatMap_const _ _ ((gX - 1) * 12) ?_]
  · simp
  · intro a _
    rw [length_flatMap_const _ _ 12 (fun b _ => by simp)]
    simp

/-- The bottom/top wall block emits 12 indices per edge cell. -/
theorem sideBlockTB_length (gX gY off : ℕ) :
    (sideBlockTB gX gY off).length = (gX - 1) * 12 := by
  rw [sideBlockTB, length_flatMap_const _ _ 12 (fun a _ => by simp)]
  simp

/-- The left/right wall block emits 12 indices per edge cell. -/
theorem sideBlockLR_length (gX gY off : ℕ) :
    (sideBlockLR gX gY off).length = (gY - 1) * 12 := by
  rw [sideBlockLR, length_flatMap_const _ _ 12 (fun a _ => by simp)]
  simp

/-- Row-major grid index bound. -/
theorem cell_lt {gX gY j i : ℕ} (hj : j < gY) (hi : i < gX) :
    j * gX + i < gX * gY := by
  calc j * gX + i < j * gX + gX := by omega
    _ = (j + 1) * gX := by ring
    _ ≤ gY * gX := Nat.mul_le_mul_right gX hj
    _ = gX * gY := Nat.mul_comm _ _

/-- Every quad-block index is a valid front or back vertex index. -/
theorem mem_quadBlock_lt (gX gY off : ℕ)
    (hcell : ∀ j i, j < gY → i < gX → j * gX + i < off) :
    ∀ e ∈ quadBlock gX gY off, e < 2 * off := by
  intro e he
  simp only [quadBlock, List.mem_flatMap, List.mem_range] at he
  obtain ⟨j, hj, i, hi, hmem⟩ := he
  have h00 := hcell j i (by omega) (by omega)
  have h01 := hcell j (i + 1) (by omega) (by omega)
  have h10 := hcell (j + 1) i (by omega) (by omega)
  have h11 := hcell (j + 1) (i + 1) (by omega) (by omega)
  simp only [List.mem_cons, List.not_mem_nil, or_false] at hmem
  rcases hmem with rfl | rfl | rfl | rfl | rfl | rfl | rfl | rfl | rfl | rfl | rfl | rfl <;>
    omega

/-- Every bottom/top wall index is a valid front or back vertex index. -/
theorem mem_sideBlockTB_lt (gX gY off : ℕ) (hgY : 0 < gY)
    (hcell : ∀ j i, j < gY → i < gX → j * gX + i < off) :
    ∀ e ∈ sideBlockTB gX gY off, e < 2 * off := by
  intro e he
  simp only [sideBlockTB, List.mem_flatMap, List.mem_range] at he
  obtain ⟨i, hi, hmem⟩ := he
  have h00 := hcell 0 i (by omega) (by omega)
  have h01 := hcell 0 (i + 1) (by omega) (by omega)
  have h10 := hcell (gY - 1) i (by omega) (by omega)
  have h11 := hcell (gY - 1) (i + 1) (by omega) (by omega)
  simp only [List.mem_cons, List.not_mem_nil, or_false] at hmem
  rcases hmem with rfl | rfl | rfl | rfl | rfl | rfl | rfl | rfl | rfl | rfl | rfl | rfl <;>
    omega

/-- Every left/right wall index is a valid front or back vertex index. -/
theorem mem_sideBlockLR_lt (gX gY off : ℕ) (hgX : 0 < gX)
    (hcell : ∀ j i, j < gY → i < gX → j * gX + i < off) :
    ∀ e ∈ sideBlockLR gX gY off, e < 2 * off := by
  intro e he
  simp only [sideBlockLR, List.mem_flatMap, List.mem_range] at he
  obtain ⟨j, hj, hmem⟩ := he
  have h00 := hcell j 0 (by omega) (by omega)
  have h01 := hcell (j + 1) 0 (by omega) (by omega)
  have h10 := hcell j (gX - 1) (by omega) (by omega)
  have h11 := hcell (j + 1) (gX - 1) (by omega) (by omega)
  simp only [List.mem_cons, List.not_mem_nil, or_false] at hmem
  rcases hmem with rfl | rfl | rfl | rfl | rfl | rfl | rfl | rfl | rfl | rfl | rfl | rfl <;>
    omega

/-- The back-grid index offset equals the front grid's vertex count. -/
theorem lithoBackOffset_eq (img : ImageSample) (p : LithophaneParams) :
    (lithoFrontList img p).length / 3 = gridXc img p * gridYc p := by
  rw [lithoFrontList_length]
  have h : gridYc p * (gridXc img p * 3) = gridXc img p * gridYc p * 3 := by ring
  rw [h, Nat.mul_div_cancel _ (by norm_num)]

/-- C9: for a non-degenerate image and grid, the relief mesh is
topologically consistent: its position buffer holds exactly
`2·gridX·gridY` vertices (three floats each), every index-buffer entry is
strictly below that vertex count, and the index count is a multiple of 3. -/
theorem C9_mesh_topology (img : ImageSample) (p : LithophaneParams)
    (h1 : 1 ≤ img.width) (h2 : 1 ≤ img.height) (h3 : 2 ≤ p.resolution)
    (h4 : 2 ≤ gridXc img p) :
    (generateLithophaneGeometry img p).positionList.length
        = 3 * (2 * (gridXc img p * gridYc p))
    ∧ (∀ e ∈ (generateLithophaneGeometry img p).indexList,
        e < 2 * (gridXc img p * gridYc p))
    ∧ (generateLithophaneGeometry img p).indexList.length % 3 = 0 := by
  have hgX : 0 < gridXc img p := by omega
  have hgY : 0 < gridYc p := by
    simp only [gridYc]
    omega
  refine ⟨?_, ?_, ?_⟩
  · simp only [generateLithophaneGeometry, List.length_append,
      lithoFrontList_length, lithoBackList_length]
    ring
  · intro e he
    simp only [generateLithophaneGeometry, lithoIndexList, lithoBackOffset_eq,
      List.mem_append] at he
    have hcell : ∀ j i, j < gridYc p → i < gridXc img p →
        j * gridXc img p + i < gridXc img p * gridYc p :=
      fun j i hj hi => cell_lt hj hi
    rcases he with (hq | htb) | hlr
    · exact mem_quadBlock_lt _ _ _ hcell e hq
    · exact mem_sideBlockTB_lt _ _ _ hgY hcell e htb
    · exact mem_sideBlockLR_lt _ _ _ hgX hcell e hlr
  · simp only [generateLithophaneGeometry, lithoIndexList, List.length_append,
      quadBlock_length, sideBlockTB_length, sideBlockLR_length]
    have h : (gridYc p - 1) * ((gridXc img p - 1) * 12) + (gridXc img p - 1) * 12 +
        (gridYc p - 1) * 12
        = 3 * ((gridYc p - 1) * ((gridXc img p - 1) * 4) + (gridXc img p - 1) * 4 +
          (gridYc p - 1) * 4) := by ring
    rw [h, Nat.mul_mod_right]

/-- Witness for C9 at the concrete 2×2 white image and resolution 2. -/
def smallLithoParams : LithophaneParams :=
  { type := "flat", width := 10, height := 10, minThickness := 0.6,
    maxThickness := 3.0, baseThickness := 0, curveRadius := 50,
    resolution := 2, inverted := false, brightness := 0, contrast := 0,
    smoothing := 0 }

/-- Witness for C9. -/
theorem C9_mesh_topology_witness :
    (generateLithophaneGeometry whiteImage smallLithoParams).positionList.length
        = 3 * (2 * (gridXc whiteImage smallLithoParams * gridYc smallLithoParams))
    ∧ (generateLithophaneGeometry whiteImage smallLithoParams).indexList.length % 3
        = 0 := by
  have hg : gridXc whiteImage smallLithoParams = 2 := by
    simp only [gridXc, whiteImage, smallLithoParams]
    norm_num
    rfl
  have h := C9_mesh_topology whiteImage smallLithoParams (by norm_num [whiteImage])
    (by norm_num [whiteImage]) (by norm_num [smallLithoParams]) (by rw [hg])
  exact ⟨h.1, h.2.2⟩

/-- C7 (no validation in the source): `generateLithophaneGeometry` builds
and returns the full relief mesh for EVERY image and parameter record —
including resolution < 2, non-positive width/height and
`maxThickness < minThickness`.  No `InvalidParameter` failure path exists. -/
theorem C7_no_validation (img : ImageSample) (p : LithophaneParams) :
    (generateLithophaneGeometry img p).positionList.length
      = 3 * (2 * (gridXc img p * gridYc p)) := by
  simp only [generateLithophaneGeometry, List.length_append,
    lithoFrontList_length, lithoBackList_length]
  ring

/-- Concrete invalid lithophane parameters: `maxThickness < minThickness`. -/
def invalidThicknessParams : LithophaneParams :=
  { type := "flat", width := 10, height := 10, minThickness := 2,
    maxThickness := 1, baseThickness := 0, curveRadius := 50,
    resolution := 2, inverted := false, brightness := 0, contrast := 0,
    smoothing := 0 }

/-- C7 counterexample: with `maxThickness = 1 < 2 = minThickness` (invalid
per the claim) the generator does not fail — it returns a complete mesh
with 8 vertices (24 floats) and 36 indices. -/
theorem C7_counterexample :
    invalidThicknessParams.maxThickness < invalidThicknessParams.minThickness
    ∧ (generateLithophaneGeometry whiteImage invalidThicknessParams).positionList.length
        = 24
    ∧ (generateLithophaneGeometry whiteImage invalidThicknessParams).indexList.length
        = 36 := by
  have hg : gridXc whiteImage invalidThicknessParams = 2 := by
    simp only [gridXc, whiteImage, invalidThicknessParams]
    norm_num
    rfl
  refine ⟨by norm_num [invalidThicknessParams], ?_, ?_⟩
  · simp only [generateLithophaneGeometry, List.length_append,
      lithoFrontList_length, lithoBackList_length, hg]
    rfl
  · simp only [generateLithophaneGeometry, lithoIndexList, List.length_append,
      quadBlock_length, sideBlockTB_length, sideBlockLR_length, hg]
    rfl
